import Mathlib

/-
  Verification of the wsgize library (branches/0.1/trunk/wsgize.py and
  branches/0.3/trunk/wsgize.py), a Python 2 WSGI middleware library.

  The embedding models Python 2 values, truthiness, the iteration
  capability probe (hasattr(x, chr(95)++"_iter__")), tuple unpacking, and
  the library's functions and classes.  Python exceptions are modelled by
  the PyErr type; a computation that can raise returns Except PyErr.
  WSGI start_response invocations are modelled as an explicit trace
  (List SRCall) so that "start_response is called exactly once with these
  arguments" is a statement about the trace.

  Python 2 facts baked into the model (all checked against Python 2
  semantics, on which this source runs: it uses basestring, the
  "except E, v" syntax and the BaseHTTPServer module):
    * str and unicode do NOT have an attribute named by "__iter__";
      lists, tuples and dicts do; ints, bools and None do not.
    * dict.get(k) returns None when k is absent; dict.get(k, d) returns d.
    * unpacking "a, b = v" raises TypeError when v is not iterable
      (e.g. None), and ValueError when v is an iterable whose length
      is not 2.
    * referencing a local variable that was never assigned raises
      UnboundLocalError (modelled by PyErr.unboundLocal).
-/

namespace WsgizeLib

/-- A Python 2 value, restricted to the shapes this library manipulates. -/
inductive PyVal where
  | vNone
  | vBool (b : Bool)
  | vInt (n : Int)
  | vStr (s : String)
  | vTuple (xs : List PyVal)
  | vList (xs : List PyVal)
  | vDict (xs : List (String × PyVal))

/-- Python exceptions this library can raise or propagate. -/
inductive PyErr where
  | keyError (k : String)
  | valueError
  | typeError (msg : String)
  | unboundLocal (name : String)
  | importError (msg : String)
  | attributeError (msg : String)
  | userError (msg : String)
deriving DecidableEq, Repr

/-- Python 2 truthiness of a value. -/
def truthy : PyVal → Bool
  | .vNone => false
  | .vBool b => b
  | .vInt n => n ≠ 0
  | .vStr s => s ≠ ""
  | .vTuple xs => !xs.isEmpty
  | .vList xs => !xs.isEmpty
  | .vDict xs => !xs.isEmpty

/-- Python 2 probe hasattr(v, "__iter__"): true for lists, tuples and
dicts; FALSE for str and unicode (Python 2 strings iterate through the
getitem protocol and expose no such attribute), ints, bools, None. -/
def hasIter : PyVal → Bool
  | .vTuple _ => true
  | .vList _ => true
  | .vDict _ => true
  | _ => false

/-- isinstance(v, basestring). -/
def isStr : PyVal → Bool
  | .vStr _ => true
  | _ => false

/-- Python dict lookup on a string-keyed dict: first binding wins
(bindings are kept unique by pySet). -/
def pyGet {α : Type} : List (String × α) → String → Option α
  | [], _ => none
  | (k, v) :: t, k' => if k = k' then some v else pyGet t k'

/-- Python dict assignment d[k] = v: overwrite in place if the key is
present, else append. -/
def pySet {α : Type} : List (String × α) → String → α → List (String × α)
  | [], k, v => [(k, v)]
  | (k', v') :: t, k, v => if k' = k then (k, v) :: t else (k', v') :: pySet t k v

/-- The WSGI environ mapping. -/
abbrev Env := List (String × PyVal)

/-- environ.get(k): the value, or None when absent. -/
def envGet (env : Env) (k : String) : PyVal := (pyGet env k).getD .vNone

/-- environ.get(k, d): the value, or the default d when absent. -/
def envGetD (env : Env) (k : String) (d : PyVal) : PyVal := (pyGet env k).getD d

/-- Modelled from the spec: the standard HTTP status-code-to-reason-phrase
table (BaseHTTPServer.BaseHTTPRequestHandler.responses, first components).
The table itself is Python standard-library data and is not part of this
repository; its contents follow the spec's standard status-reason list. -/
def responses : List (Int × String) := [
  (100, "Continue"), (101, "Switching Protocols"),
  (200, "OK"), (201, "Created"), (202, "Accepted"),
  (203, "Non-Authoritative Information"), (204, "No Content"),
  (205, "Reset Content"), (206, "Partial Content"),
  (300, "Multiple Choices"), (301, "Moved Permanently"), (302, "Found"),
  (303, "See Other"), (304, "Not Modified"), (305, "Use Proxy"),
  (307, "Temporary Redirect"),
  (400, "Bad Request"), (401, "Unauthorized"), (402, "Payment Required"),
  (403, "Forbidden"), (404, "Not Found"), (405, "Method Not Allowed"),
  (406, "Not Acceptable"), (407, "Proxy Authentication Required"),
  (408, "Request Timeout"), (409, "Conflict"), (410, "Gone"),
  (411, "Length Required"), (412, "Precondition Failed"),
  (413, "Request Entity Too Large"), (414, "Request-URI Too Long"),
  (415, "Unsupported Media Type"), (416, "Requested Range Not Satisfiable"),
  (417, "Expectation Failed"),
  (500, "Internal Server Error"), (501, "Not Implemented"),
  (502, "Bad Gateway"), (503, "Service Unavailable"),
  (504, "Gateway Timeout"), (505, "HTTP Version Not Supported")]

/-- Lookup in the reason-phrase table (Python dict indexing, which raises
KeyError when the key is absent). -/
def phraseOf : List (Int × String) → Int → Option String
  | [], _ => none
  | (k, v) :: t, c => if k = c then some v else phraseOf t c

/-- def response(code): return the string code ++ " " ++ phrase, where the
phrase comes from the stdlib table; dict indexing raises KeyError for a
code not in the table.  Identical in branches/0.1 and branches/0.3. -/
def response (code : Int) : Except PyErr String :=
  match phraseOf responses code with
  | some p => .ok (toString code ++ " " ++ p)
  | none => .error (.keyError (toString code))

/-- One recorded invocation of the WSGI start_response callback: the
status-line string, the header list, and the exception-context argument
(none models Python None). -/
structure SRCall where
  status : String
  headers : List (String × String)
  excInfo : Option PyVal

/-- A wrapped WSGI-convention callable: receives environ (the
start_response callback it also receives in the source is not consumed by
any code path the claims exercise) and returns data or raises. -/
abbrev WsgiApp := Env → Except PyErr PyVal

/-- An arbitrary (non-WSGI) callable: positional arguments and keyword
arguments, returning data or raising. -/
abbrev PlainApp := List PyVal → List (String × PyVal) → Except PyErr PyVal

/-- The keyword options accepted by Wsgize.\_\_init\_\_ (kw.get with the
source's defaults happens in mkWsgize); none means the option was not
passed. -/
structure WsgizeKw where
  response : Option Int := none
  mime : Option String := none
  headers : Option (List (String × String)) := none
  exc_info : Option PyVal := none
  kwargs : Option String := none
  args : Option String := none
  routing_args : Option String := none

/-- The state a constructed Wsgize instance carries (branches/0.3
Wsgize.\_\_init\_\_).  The source stores the precomputed status string in
an attribute named start_response; the field keeps that name.  The 0.1
\_\_init\_\_ is identical except that it does not set the key field; 0.1
code never reads it, so both versions share this structure. -/
structure Wsgize where
  start_response : String
  headers : List (String × String)
  exc_info : Option PyVal
  kwargkey : String
  argkey : String
  key : String

/-- Wsgize.\_\_init\_\_: precompute the status line via response() (a
KeyError from an unknown code propagates out of construction), build the
header list with Content-type first, and record the configured keys. -/
def mkWsgize (kw : WsgizeKw) : Except PyErr Wsgize :=
  match response (kw.response.getD 200) with
  | .error e => .error e
  | .ok sr =>
    .ok { start_response := sr
          headers := ("Content-type", kw.mime.getD "text/html") :: kw.headers.getD []
          exc_info := kw.exc_info
          kwargkey := kw.kwargs.getD "wsgize.kwargs"
          argkey := kw.args.getD "wsgize.args"
          key := kw.routing_args.getD "wsgiorg.routing_args" }

/-- A default-constructed Wsgize (no keyword options). -/
def wsgizeDefault : Wsgize :=
  { start_response := "200 OK"
    headers := [("Content-type", "text/html")]
    exc_info := none
    kwargkey := "wsgize.kwargs"
    argkey := "wsgize.args"
    key := "wsgiorg.routing_args" }

/-- The start_response invocation a default-constructed wrapper makes. -/
def srDefault : SRCall :=
  { status := "200 OK", headers := [("Content-type", "text/html")], excInfo := none }

/-- Wsgize.\_\_call\_\_ (identical in branches/0.1 and branches/0.3): run
the wrapped callable; if it raises, propagate (start_response is never
reached, first component [] of the result is the trace of start_response
invocations made by the wrapper).  Otherwise invoke start_response once
with the precomputed values, then: if the data has an attribute named by
"__iter__", wrap it in a one-element list when it is a basestring
(unreachable for plain Python 2 strings, which lack that attribute) and
return it; otherwise raise TypeError. -/
def Wsgize.call (w : Wsgize) (application : WsgiApp) (environ : Env) :
    List SRCall × Except PyErr PyVal :=
  match application environ with
  | .error e => ([], .error e)
  | .ok data =>
    let calls : List SRCall := [⟨w.start_response, w.headers, w.exc_info⟩]
    if hasIter data then
      (calls, .ok (if isStr data then .vList [data] else data))
    else
      (calls, .error (.typeError "Data returned by callable must be iterable or string."))

/-- Python 2 unpacking "a, b = v": TypeError when v is not iterable
(None, ints, bools), ValueError when v is iterable but not of length 2;
strings unpack into one-character strings, dicts into their keys. -/
def unpack2 : PyVal → Except PyErr (PyVal × PyVal)
  | .vTuple [a, b] => .ok (a, b)
  | .vTuple _ => .error .valueError
  | .vList [a, b] => .ok (a, b)
  | .vList _ => .error .valueError
  | .vStr s =>
      match s.data with
      | [a, b] => .ok (.vStr (String.mk [a]), .vStr (String.mk [b]))
      | _ => .error .valueError
  | .vDict [(k1, _), (k2, _)] => .ok (.vStr k1, .vStr k2)
  | .vDict _ => .error .valueError
  | _ => .error (.typeError "NoneType object is not iterable")

/-- Python star-unpacking f(*args): args must be a sequence. -/
def asArgList : PyVal → Except PyErr (List PyVal)
  | .vTuple xs => .ok xs
  | .vList xs => .ok xs
  | .vStr s => .ok (s.data.map fun c => .vStr (String.mk [c]))
  | _ => .error (.typeError "argument after star must be a sequence")

/-- Python double-star-unpacking f(**kw): kw must be a mapping. -/
def asKwDict : PyVal → Except PyErr (List (String × PyVal))
  | .vDict xs => .ok xs
  | _ => .error (.typeError "argument after double star must be a mapping")

/-- The if args and kw / elif args / elif kw chain of WsgiWrap.\_\_call\_\_
(textually identical in branches/0.1 and branches/0.3): invoke the wrapped
callable with the present argument kinds; when neither is truthy, no branch
runs and the local variable data is never assigned (modelled as none). -/
def argDispatch (application : PlainApp) (args kw : PyVal) :
    Except PyErr (Option PyVal) :=
  if truthy args && truthy kw then do
    let a ← asArgList args
    let k ← asKwDict kw
    let d ← application a k
    pure (some d)
  else if truthy args then do
    let a ← asArgList args
    let d ← application a []
    pure (some d)
  else if truthy kw then do
    let k ← asKwDict kw
    let d ← application [] k
    pure (some d)
  else pure none

/-- The tail of WsgiWrap.\_\_call\_\_ (textually identical in both
versions): call start_response with the precomputed values, then wrap a
basestring result in a one-element list and return the data — there is no
iterability check here, any non-string value is returned unchanged.  When
the local data was never assigned, the isinstance test raises
UnboundLocalError. -/
def finishWrap (w : Wsgize) (data : Except PyErr (Option PyVal)) :
    List SRCall × Except PyErr PyVal :=
  match data with
  | .error e => ([], .error e)
  | .ok dOpt =>
    let calls : List SRCall := [⟨w.start_response, w.headers, w.exc_info⟩]
    match dOpt with
    | none => (calls, .error (.unboundLocal "data"))
    | some d => (calls, .ok (if isStr d then .vList [d] else d))

/-- WsgiWrap.\_\_call\_\_ of branches/0.3: try args, kw =
environ.get(self.key).  environ.get returns None when the key is absent,
and unpacking None raises TypeError, which the except ValueError clause
does NOT catch — only a ValueError (key present, value of the wrong
length) triggers the fallback to the two separate keys with () / \x7b\x7d
defaults. -/
def WsgiWrap.call (w : Wsgize) (application : PlainApp) (environ : Env) :
    List SRCall × Except PyErr PyVal :=
  let determined : Except PyErr (PyVal × PyVal) :=
    match unpack2 (envGet environ w.key) with
    | .ok p => .ok p
    | .error .valueError =>
        .ok (envGetD environ w.argkey (.vTuple []), envGetD environ w.kwargkey (.vDict []))
    | .error e => .error e
  match determined with
  | .error e => ([], .error e)
  | .ok (args, kw) => finishWrap w (argDispatch application args kw)

/-- WsgiWrap.\_\_call\_\_ of branches/0.1: args = environ.get(self.argkey,
False) and kw = environ.get(self.kwargkey, False) — no combined routing
key — then the same dispatch and tail as 0.3. -/
def WsgiWrap01.call (w : Wsgize) (application : PlainApp) (environ : Env) :
    List SRCall × Except PyErr PyVal :=
  let args := envGetD environ w.argkey (.vBool false)
  let kw := envGetD environ w.kwargkey (.vBool false)
  finishWrap w (argDispatch application args kw)

/-- A resolved WSGI handler: takes environ, returns the trace of
start_response invocations it makes together with its data or an error. -/
abbrev Handler := Env → List SRCall × Except PyErr PyVal

/-- An entry of a dispatch table: a callable (has an attribute named by
"__call__"; in 0.1 terms, not a basestring), a dotted-path string, or any
other non-callable non-string value. -/
inductive Entry where
  | callableE (h : Handler)
  | strE (s : String)
  | otherE (v : PyVal)

/-- A dispatch table: string keys to entries. -/
abbrev Table := List (String × Entry)

/-- The import machinery getcallback relies on, as the environment sees
it: module name to either a loader failure detail string or the module's
attribute mapping. -/
abbrev ImportEnv := String → Except String (String → Option Handler)

/-- Index of the last occurrence of a dot in a character list
(str.rindex, which raises ValueError when no dot occurs — hence Option). -/
def lastDot : List Char → Option Nat
  | [] => none
  | c :: cs =>
      match lastDot cs with
      | some i => some (i + 1)
      | none => if c = '.' then some 0 else none

/-- getmodfunc (0.3) / get_mod_func (0.1), textually identical: prefix
with modpath joined by a dot when the modpath is nonempty, then split at
the last dot; str.rindex raises ValueError when there is no dot. -/
def getmodfunc (modpath callback : String) : Except PyErr (String × String) :=
  let cb := if modpath ≠ "" then modpath ++ "." ++ callback else callback
  match lastDot cb.data with
  | none => .error .valueError
  | some i => .ok (String.mk (cb.data.take i), String.mk (cb.data.drop (i + 1)))

/-- getcallback (0.3) / get_callback (0.1), textually identical: split the
dotted name (a ValueError from getmodfunc propagates raw, it is raised
outside the try in the source), import the module, fetch the attribute;
failures are rewrapped with the source's message formats (the underlying
detail of the AttributeError is the interpreter's text, modelled by a
fixed shape). -/
def getcallback (imp : ImportEnv) (modpath callback : String) :
    Except PyErr Handler :=
  match getmodfunc modpath callback with
  | .error e => .error e
  | .ok (modName, funcName) =>
    match imp modName with
    | .error detail =>
        .error (.importError ("Could not import " ++ modName ++ ". Error was: " ++ detail))
    | .ok attrs =>
      match attrs funcName with
      | some h => .ok h
      | none =>
          .error (.attributeError ("Tried " ++ funcName ++ " in module " ++ modName ++
            ". Error was: module " ++ modName ++ " has no attribute " ++ funcName))

/-- WsgiRoute.lookup of branches/0.3: fetch table[kw] (KeyError when
absent); return the entry directly when it has an attribute named by
"__call__", otherwise pass it to getcallback (a non-callable non-string
entry reaches string operations and raises a TypeError). -/
def lookup03 (tbl : Table) (imp : ImportEnv) (modpath kw : String) :
    Except PyErr Entry :=
  match pyGet tbl kw with
  | none => .error (.keyError kw)
  | some (.callableE h) => .ok (.callableE h)
  | some (.strE s) => (getcallback imp modpath s).map .callableE
  | some (.otherE _) => .error (.typeError "cannot concatenate str and non-str objects")

/-- WsgiRoute.lookup of branches/0.1: fetch table[kw] (KeyError when
absent); return the entry directly when it is NOT a basestring (even a
non-callable value), otherwise pass the string to get_callback. -/
def lookup01 (tbl : Table) (imp : ImportEnv) (modpath kw : String) :
    Except PyErr Entry :=
  match pyGet tbl kw with
  | none => .error (.keyError kw)
  | some (.strE s) => (getcallback imp modpath s).map .callableE
  | some e => .ok e

/-- The process-wide routing table of branches/0.3 is module-level mutable
state; the embedding passes it explicitly.  register(name, application):
routes[name] = application — plain dict assignment, insert or silent
overwrite. -/
def register (name : String) (application : Entry) (routes : Table) : Table :=
  pySet routes name application

/-- route(name) of branches/0.3: the decorator calls register(name,
application) as a side effect and returns the application unchanged; the
embedding returns both the unchanged callable and the updated shared
table. -/
def route (name : String) (application : Entry) (routes : Table) : Entry × Table :=
  (application, register name application routes)

/-- The keyword options of WsgiRoute.\_\_init\_\_ of branches/0.3 (the
syspaths option mutates the process module search path and no claim is
about it, so it is not modelled). -/
structure RouteKw where
  modpath : Option String := none
  key : Option String := none

/-- A constructed WsgiRoute of branches/0.3.  self.table = table when a
table was passed, else the shared module-level routes dict (aliased, not
copied): table = none here means the dispatcher reads whatever the shared
table contains at lookup time. -/
structure WsgiRoute where
  table : Option Table
  modpath : String
  key : String

/-- WsgiRoute.\_\_init\_\_ of branches/0.3. -/
def mkWsgiRoute (table : Option Table) (kw : RouteKw) : WsgiRoute :=
  { table := table
    modpath := kw.modpath.getD ""
    key := kw.key.getD "wsgize.callable" }

/-- The table this dispatcher consults now: its own, or the current state
of the shared routes table (aliasing of self.table = routes). -/
def WsgiRoute.currentTable (r : WsgiRoute) (routes : Table) : Table :=
  r.table.getD routes

/-- WsgiRoute.lookup of branches/0.3, at the instance level. -/
def WsgiRoute.lookup (r : WsgiRoute) (routes : Table) (imp : ImportEnv)
    (kw : String) : Except PyErr Entry :=
  lookup03 (r.currentTable routes) imp r.modpath kw

/-- The dispatch key read from environ must be a string to be found in a
string-keyed table; environ[self.key] raises KeyError when absent. -/
def keyStr : PyVal → Option String
  | .vStr s => some s
  | _ => none

/-- WsgiRoute.\_\_call\_\_ of branches/0.3: callback =
self.lookup(environ[self.key]); return callback(environ, start_response)
— the resolved callable's result is returned unmodified and this layer
makes no start_response invocation of its own (errors surface with an
empty trace). -/
def WsgiRoute.call (r : WsgiRoute) (routes : Table) (imp : ImportEnv)
    (environ : Env) : List SRCall × Except PyErr PyVal :=
  match pyGet environ r.key with
  | none => ([], .error (.keyError r.key))
  | some v =>
    match keyStr v with
    | none => ([], .error (.keyError r.key))
    | some kw =>
      match r.lookup routes imp kw with
      | .error e => ([], .error e)
      | .ok (.callableE h) => h environ
      | .ok _ => ([], .error (.typeError "object is not callable"))

/-- True for the entry shapes the two lookup versions were written for:
live callables and dotted-path strings. -/
def Entry.isDirectOrStr : Entry → Bool
  | .otherE _ => false
  | _ => true

/-- A wrapped callable that records the positional and keyword arguments
it was invoked with, so theorems can observe the exact call shape. -/
def appRec : PlainApp := fun a k => .ok (.vTuple [.vTuple a, .vDict k])

/-- A concrete handler used in dispatch theorems. -/
def hGreet : Handler := fun _ => ([], .ok (.vStr "hi"))

/-- An import environment in which no module can be found. -/
def impEmpty : ImportEnv := fun m => .error ("No module named " ++ m)

/-- An environment carrying the combined routing-args pair ((1,2),
\x7bx: 3\x7d) together with both separate argument keys. -/
def envPrecedence : Env :=
  [("wsgiorg.routing_args", .vTuple [.vTuple [.vInt 1, .vInt 2], .vDict [("x", .vInt 3)]]),
   ("wsgize.args", .vTuple [.vInt 9]), ("wsgize.kwargs", .vDict [("y", .vInt 8)])]

/-- An environment with only positional arguments under wsgize.args and
no combined routing key. -/
def envArgsOnly : Env := [("wsgize.args", .vTuple [.vInt 1])]

/-- An environment whose combined routing key holds a three-element tuple
(its unpacking into two raises ValueError). -/
def envBadShape : Env :=
  [("wsgiorg.routing_args", .vTuple [.vInt 1, .vInt 2, .vInt 3]),
   ("wsgize.args", .vTuple [.vInt 5])]

/-- An environment whose combined routing key supplies exactly one
positional argument and no keyword arguments. -/
def envRouting1 : Env := [("wsgiorg.routing_args", .vTuple [.vTuple [.vInt 1], .vDict []])]

/-- A concrete two-entry dispatch table with one callable and one
dotted-path entry. -/
def tblW : Table := [("a", .callableE hGreet), ("b", .strE "m.f")]

/-- Updating a string-keyed dict then reading the same key yields the
written value. -/
theorem pyGet_pySet {α : Type} (d : List (String × α)) (k : String) (v : α) :
    pyGet (pySet d k v) k = some v := by
  induction d with
  | nil => simp [pySet, pyGet]
  | cons hd t ih =>
    obtain ⟨k', v'⟩ := hd
    by_cases h : k' = k
    · subst h
      simp [pySet, pyGet]
    · simp [pySet, pyGet, h, ih]

/-- A successful dict read exhibits a member of the underlying list. -/
theorem pyGet_mem {α : Type} (d : List (String × α)) (k : String) (v : α)
    (h : pyGet d k = some v) : (k, v) ∈ d := by
  induction d with
  | nil => simp [pyGet] at h
  | cons hd t ih =>
    obtain ⟨k', v'⟩ := hd
    by_cases hk : k' = k
    · subst hk
      simp [pyGet] at h
      subst h
      exact List.mem_cons_self _ _
    · simp [pyGet, hk] at h
      exact List.mem_cons_of_mem _ (ih h)

/-- C1: for every HTTP status code present in the standard
status-code-to-reason-phrase table, response(c) returns the string
consisting of the code, a space and the reason phrase; for every integer
code not present in the table, response fails with a KeyError lookup
failure and no fallback phrase is substituted; in particular
response(200) = "200 OK", response(404) = "404 Not Found",
response(500) = "500 Internal Server Error" and response(999) fails. -/
theorem response_table_spec (c : Int) :
    (∀ p, phraseOf responses c = some p →
      response c = .ok (toString c ++ " " ++ p)) ∧
    (phraseOf responses c = none → response c = .error (.keyError (toString c))) ∧
    response 200 = .ok "200 OK" ∧
    response 404 = .ok "404 Not Found" ∧
    response 500 = .ok "500 Internal Server Error" ∧
    response 999 = .error (.keyError "999") := by
  refine ⟨?_, ?_, rfl, rfl, rfl, rfl⟩
  · intro p hp
    simp [response, hp]
  · intro hp
    simp [response, hp]

/-- Witness for C1 at code 200, whose table entry is the phrase "OK". -/
theorem response_table_spec_witness :
    response 200 = .ok (toString (200 : Int) ++ " " ++ "OK") :=
  (response_table_spec 200).1 "OK" rfl

/-- C2: the claim fails on the code.  A default-constructed Wsgize
wrapping a callable that returns the string "hello" does invoke the
wrapped callable first and then invokes start_response exactly once with
the precomputed "200 OK", [("Content-type", "text/html")] and no
exception context — but it then raises the TypeError instead of returning
the one-element sequence ["hello"], because a Python 2 string has no
attribute named by "__iter__", so the iterability probe fails and the
string-wrapping branch (guarded by that probe) is unreachable, against
the intent documented by the code comment and the error message text. -/
theorem wsgize_hello_start_response_bug :
    mkWsgize {} = .ok wsgizeDefault ∧
    Wsgize.call wsgizeDefault (fun _ => .ok (.vStr "hello")) [] =
      ([srDefault],
        .error (.typeError "Data returned by callable must be iterable or string.")) ∧
    (Wsgize.call wsgizeDefault (fun _ => .ok (.vStr "hello")) []).2 ≠
      .ok (.vList [.vStr "hello"]) := by
  refine ⟨rfl, rfl, ?_⟩
  simp [Wsgize.call, hasIter, isStr, srDefault]

/-- C3: the text branch of the claim fails on the code.  Wsgize
normalization on a plain string raises the InvalidOutput TypeError
instead of wrapping it in a one-element sequence (the wrap is guarded by
the "__iter__" probe, which Python 2 strings fail); an iterable result is
indeed returned unchanged, and a result that is neither text nor iterable
does fail with the InvalidOutput TypeError. -/
theorem wsgize_string_normalization_bug :
    Wsgize.call wsgizeDefault (fun _ => .ok (.vStr "a")) [] =
      ([srDefault],
        .error (.typeError "Data returned by callable must be iterable or string.")) ∧
    Wsgize.call wsgizeDefault
        (fun _ => .ok (.vList [.vStr "a", .vStr "b", .vStr "c"])) [] =
      ([srDefault], .ok (.vList [.vStr "a", .vStr "b", .vStr "c"])) ∧
    Wsgize.call wsgizeDefault (fun _ => .ok (.vInt 7)) [] =
      ([srDefault],
        .error (.typeError "Data returned by callable must be iterable or string.")) :=
  ⟨rfl, rfl, rfl⟩

/-- C4: when the wrapped callable raises, the error propagates unmodified
out of Wsgize and the wrapper never invokes start_response for that
request (empty invocation trace). -/
theorem wsgize_error_propagation (w : Wsgize) (application : WsgiApp)
    (environ : Env) (e : PyErr) (h : application environ = .error e) :
    Wsgize.call w application environ = ([], .error e) := by
  simp [Wsgize.call, h]

/-- Witness for C4 at a concrete raising callable. -/
theorem wsgize_error_propagation_witness :
    Wsgize.call wsgizeDefault (fun _ => .error (.userError "boom")) [] =
      ([], .error (.userError "boom")) :=
  wsgize_error_propagation wsgizeDefault _ [] _ rfl

/-- C5 counterexample: in an environment where the combined
wsgiorg.routing_args key is ABSENT and wsgize.args holds (1,), the
claimed fallback does not happen — environ.get returns None, unpacking
None raises a TypeError that the except ValueError clause does not catch,
the wrapped callable is never invoked, start_response is never invoked,
and the result is not the normalized fallback call result the claim
demands. -/
theorem wsgiwrap_routing_args_counterexample :
    WsgiWrap.call wsgizeDefault appRec envArgsOnly =
      ([], .error (.typeError "NoneType object is not iterable")) ∧
    WsgiWrap.call wsgizeDefault appRec envArgsOnly ≠
      ([srDefault], .ok (.vTuple [.vTuple [.vInt 1], .vDict []])) := by
  refine ⟨rfl, ?_⟩
  intro h
  rw [show WsgiWrap.call wsgizeDefault appRec envArgsOnly =
      ([], .error (.typeError "NoneType object is not iterable")) from rfl] at h
  simp at h

/-- C5 amended: the combined-pair path takes precedence whenever the
combined key holds a well-shaped pair (the claimed example yields exactly
wrapped(1, 2, x=3)); the fallback to wsgize.args / wsgize.kwargs with
empty-tuple/empty-dict defaults happens only when the combined key is
present but its value fails to unpack into exactly two components
(ValueError); when the combined key is absent, the unpacking of the None
returned by environ.get raises a TypeError that propagates — no fallback,
no call, no start_response. -/
theorem wsgiwrap_routing_args_amended (application : PlainApp) :
    WsgiWrap.call wsgizeDefault application envPrecedence =
      (match application [.vInt 1, .vInt 2] [("x", .vInt 3)] with
       | .error e => ([], .error e)
       | .ok d => ([srDefault], .ok (if isStr d then .vList [d] else d))) ∧
    WsgiWrap.call wsgizeDefault application envBadShape =
      (match application [.vInt 5] [] with
       | .error e => ([], .error e)
       | .ok d => ([srDefault], .ok (if isStr d then .vList [d] else d))) ∧
    WsgiWrap.call wsgizeDefault application envArgsOnly =
      ([], .error (.typeError "NoneType object is not iterable")) := by
  refine ⟨?_, ?_, rfl⟩
  · cases h : application [.vInt 1, .vInt 2] [("x", .vInt 3)] <;>
      simp [WsgiWrap.call, wsgizeDefault, envPrecedence, envGet, envGetD, pyGet,
        unpack2, argDispatch, truthy, asArgList, asKwDict, finishWrap, srDefault,
        Bind.bind, Except.bind, Functor.map, Except.map, Pure.pure, Except.pure, h]
  · cases h : application [.vInt 5] [] <;>
      simp [WsgiWrap.call, wsgizeDefault, envBadShape, envGet, envGetD, pyGet,
        unpack2, argDispatch, truthy, asArgList, asKwDict, finishWrap, srDefault,
        Bind.bind, Except.bind, Functor.map, Except.map, Pure.pure, Except.pure, h]

/-- C6 counterexample: for the version-0.3 adapter with ALL configured
argument keys absent (empty environment), the invocation does not proceed
into an undefined-variable failure — it fails earlier, with the TypeError
raised by unpacking the None that environ.get returns for the absent
combined key (the wrapped callable is still never invoked). -/
theorem wsgiwrap_missing_args_counterexample :
    WsgiWrap.call wsgizeDefault appRec [] =
      ([], .error (.typeError "NoneType object is not iterable")) ∧
    WsgiWrap.call wsgizeDefault appRec [] ≠
      ([srDefault], .error (.unboundLocal "data")) := by
  refine ⟨rfl, ?_⟩
  intro h
  rw [show WsgiWrap.call wsgizeDefault appRec [] =
      ([], .error (.typeError "NoneType object is not iterable")) from rfl] at h
  simp at h

/-- C6 amended: whenever argument determination completes with neither
positional nor keyword arguments truthy — version 0.1 with both keys
absent, or version 0.3 with the combined key holding a pair of empties —
the wrapped callable is not invoked (the result is the same for every
application), start_response IS invoked, and the invocation then fails
with the undefined-variable (UnboundLocalError) failure on data; in
version 0.3 with all keys absent the failure instead occurs earlier as a
TypeError from unpacking None, again without invoking the callable. -/
theorem wsgiwrap_missing_args_amended (application : PlainApp) :
    WsgiWrap01.call wsgizeDefault application [] =
      ([srDefault], .error (.unboundLocal "data")) ∧
    WsgiWrap.call wsgizeDefault application
        [("wsgiorg.routing_args", .vTuple [.vTuple [], .vDict []])] =
      ([srDefault], .error (.unboundLocal "data")) ∧
    WsgiWrap.call wsgizeDefault application [] =
      ([], .error (.typeError "NoneType object is not iterable")) :=
  ⟨rfl, rfl, rfl⟩

/-- C7 counterexample: a version-0.3 adapter whose wrapped callable
returns the integer 5 (neither text nor iterable) does NOT fail with
InvalidOutput — it returns 5 unchanged after invoking start_response,
whereas the parent wrapper on the same data does raise the InvalidOutput
TypeError, so the adapter's normalization is not the same as the
parent's. -/
theorem wsgiwrap_normalization_counterexample :
    WsgiWrap.call wsgizeDefault (fun _ _ => .ok (.vInt 5)) envRouting1 =
      ([srDefault], .ok (.vInt 5)) ∧
    (WsgiWrap.call wsgizeDefault (fun _ _ => .ok (.vInt 5)) envRouting1).2 ≠
      .error (.typeError "Data returned by callable must be iterable or string.") ∧
    Wsgize.call wsgizeDefault (fun _ => .ok (.vInt 5)) [] =
      ([srDefault],
        .error (.typeError "Data returned by callable must be iterable or string.")) := by
  refine ⟨rfl, ?_, rfl⟩
  intro h
  rw [show (WsgiWrap.call wsgizeDefault (fun _ _ => .ok (.vInt 5)) envRouting1).2 =
      .ok (.vInt 5) from rfl] at h
  simp at h

/-- C7 amended: after invoking the wrapped callable, the adapter (both
versions) invokes start_response once with the precomputed values and
applies only string wrapping: a text result is wrapped in a one-element
sequence and EVERY other result — iterable or not — is returned
unchanged; no iterability check is performed and no InvalidOutput is
raised, unlike the parent wrapper. -/
theorem wsgiwrap_normalization_amended (d : PyVal) :
    WsgiWrap.call wsgizeDefault (fun _ _ => .ok d) envRouting1 =
      ([srDefault], .ok (if isStr d then .vList [d] else d)) ∧
    WsgiWrap01.call wsgizeDefault (fun _ _ => .ok d) envArgsOnly =
      ([srDefault], .ok (if isStr d then .vList [d] else d)) :=
  ⟨rfl, rfl⟩

/-- C8: WsgiRoute reads the dispatch key from environ at the configured
key name (KeyError when absent), fetches table[key] (KeyError when the
dispatch key is absent from the table), returns a callable entry directly
and resolves a string entry through getcallback, then invokes the
resolved callable with environ (and the start_response it forwards) and
returns its result unmodified, with no status or header autogeneration at
this layer (no start_response invocation of its own, and resolution
errors propagate). -/
theorem wsgiRoute_call_spec (r : WsgiRoute) (routes : Table) (imp : ImportEnv)
    (environ : Env) :
    (pyGet environ r.key = none →
      WsgiRoute.call r routes imp environ = ([], .error (.keyError r.key))) ∧
    (∀ kw, pyGet environ r.key = some (.vStr kw) →
      pyGet (r.currentTable routes) kw = none →
      WsgiRoute.call r routes imp environ = ([], .error (.keyError kw))) ∧
    (∀ kw h, pyGet environ r.key = some (.vStr kw) →
      pyGet (r.currentTable routes) kw = some (.callableE h) →
      WsgiRoute.call r routes imp environ = h environ) ∧
    (∀ kw s h, pyGet environ r.key = some (.vStr kw) →
      pyGet (r.currentTable routes) kw = some (.strE s) →
      getcallback imp r.modpath s = .ok h →
      WsgiRoute.call r routes imp environ = h environ) ∧
    (∀ kw s e, pyGet environ r.key = some (.vStr kw) →
      pyGet (r.currentTable routes) kw = some (.strE s) →
      getcallback imp r.modpath s = .error e →
      WsgiRoute.call r routes imp environ = ([], .error e)) := by
  refine ⟨?_, ?_, ?_, ?_, ?_⟩
  · intro h
    simp [WsgiRoute.call, h]
  · intro kw h1 h2
    simp [WsgiRoute.call, WsgiRoute.lookup, lookup03, keyStr, h1, h2]
  · intro kw h h1 h2
    simp [WsgiRoute.call, WsgiRoute.lookup, lookup03, keyStr, h1, h2]
  · intro kw s h h1 h2 h3
    simp [WsgiRoute.call, WsgiRoute.lookup, lookup03, keyStr, Except.map, h1, h2, h3]
  · intro kw s e h1 h2 h3
    simp [WsgiRoute.call, WsgiRoute.lookup, lookup03, keyStr, Except.map, h1, h2, h3]

/-- Witness for C8: a dispatcher over the table greet -> hGreet, given an
environment with wsgize.callable = "greet", returns hGreet's result
unmodified. -/
theorem wsgiRoute_call_spec_witness :
    WsgiRoute.call (mkWsgiRoute (some [("greet", .callableE hGreet)]) {}) []
      impEmpty [("wsgize.callable", .vStr "greet")] =
      hGreet [("wsgize.callable", .vStr "greet")] :=
  (wsgiRoute_call_spec (mkWsgiRoute (some [("greet", .callableE hGreet)]) {}) []
    impEmpty [("wsgize.callable", .vStr "greet")]).2.2.1 "greet" hGreet rfl rfl

/-- C9: route(name) registers the callable in the shared table under name
and returns the callable itself unchanged; register inserts or silently
overwrites with no uniqueness check (after a second registration under
the same name only the second is found); and a WsgiRoute constructed
without an explicit table consults the shared table as it is at lookup
time, so a registration made after construction is visible to its
lookups. -/
theorem route_register_shared_table_spec (name : String) (application : Entry)
    (routes : Table) :
    route name application routes = (application, register name application routes) ∧
    pyGet (register name application routes) name = some application ∧
    (∀ application2 : Entry,
      pyGet (register name application2 (register name application routes)) name =
        some application2) ∧
    (∀ h : Handler, ∀ imp : ImportEnv,
      WsgiRoute.lookup (mkWsgiRoute none {}) (register name (.callableE h) routes)
        imp name = .ok (.callableE h)) := by
  refine ⟨rfl, pyGet_pySet routes name application, ?_, ?_⟩
  · intro application2
    exact pyGet_pySet _ name application2
  · intro h imp
    simp [WsgiRoute.lookup, WsgiRoute.currentTable, mkWsgiRoute, lookup03,
      register, pyGet_pySet]

/-- C10: on a dispatch table whose entries are all either callables or
dotted-path strings, the version-0.1 lookup (direct return when the entry
is not a string) and the version-0.3 lookup (direct return when the entry
is callable) resolve every key present in the table identically. -/
theorem lookup_versions_agree (tbl : Table) (imp : ImportEnv) (modpath : String)
    (hshape : ∀ k e, (k, e) ∈ tbl → e.isDirectOrStr = true) (kw : String)
    (e : Entry) (hmem : pyGet tbl kw = some e) :
    lookup01 tbl imp modpath kw = lookup03 tbl imp modpath kw := by
  have he := hshape kw e (pyGet_mem tbl kw e hmem)
  cases e with
  | callableE h => simp [lookup01, lookup03, hmem]
  | strE s => simp [lookup01, lookup03, hmem]
  | otherE v => simp [Entry.isDirectOrStr] at he

/-- Witness for C10 on a concrete callable-and-string table at the key of
its callable entry. -/
theorem lookup_versions_agree_witness :
    lookup01 tblW impEmpty "" "a" = lookup03 tblW impEmpty "" "a" :=
  lookup_versions_agree tblW impEmpty ""
    (by
      intro k e h
      simp [tblW] at h
      rcases h with ⟨hk, he⟩ | ⟨hk, he⟩ <;> subst he <;> rfl)
    "a" (.callableE hGreet) rfl

end WsgizeLib
